import Mathlib

/-!
Verification development for the field-force-tracker repository: a shallow
embedding in Lean 4 of the check-in lifecycle store, the HTTP route behaviour,
the report aggregation (backend/routes/report.js), the frontend date filter
(frontend/src/pages/History.jsx), the axios response interceptor
(frontend/src/utils/api.js), the date helpers (frontend/src/utils/date-helper)
and the haversine distance utility (frontend/src/utils/calculateDistance.js),
together with theorems settling the frozen claims about them.
-/

/- ### Date helpers (frontend/src/utils/date-helper: parseUtcToLocal, formatLocalTime) -/

/-- Replaces the first occurrence of a character, as the JavaScript
`String.prototype.replace(searchChar, replaceChar)` call does in
`parseUtcToLocal` (`utcString.replace(' ', 'T')`). -/
def replaceFirst : List Char → Char → Char → List Char
  | [], _, _ => []
  | c :: cs, a, b => if c = a then b :: cs else c :: replaceFirst cs a b

/-- Numeric value of a decimal digit character, `none` on non-digits. -/
def digitVal (c : Char) : Option Nat :=
  if '0' ≤ c ∧ c ≤ '9' then some (c.toNat - 48) else none

/-- Two-digit decimal number from two characters. -/
def parse2 (a b : Char) : Option Nat := do
  let x ← digitVal a
  let y ← digitVal b
  pure (10 * x + y)

/-- Four-digit decimal number from four characters. -/
def parse4 (a b c d : Char) : Option Nat := do
  let x ← parse2 a b
  let y ← parse2 c d
  pure (100 * x + y)

/-- The six numeric fields of a timestamp `YYYY-MM-DDTHH:MM:SSZ`. -/
structure TsFields where
  year : Nat
  month : Nat
  day : Nat
  hour : Nat
  minute : Nat
  second : Nat
deriving DecidableEq, Repr

/-- Gregorian leap-year rule, as used by ECMAScript date parsing. -/
def isLeapYear (y : Nat) : Bool :=
  (y % 4 = 0 && y % 100 ≠ 0) || y % 400 = 0

/-- Number of days in a month (1–12) of a given year. -/
def daysInMonth (y m : Nat) : Nat :=
  if m = 2 then (if isLeapYear y then 29 else 28)
  else if m = 4 ∨ m = 6 ∨ m = 9 ∨ m = 11 then 30
  else 31

/-- Field validity for an ISO timestamp: the ranges under which the
ECMAScript `Date` constructor accepts the string rather than producing an
invalid date. -/
def validTs (f : TsFields) : Bool :=
  1 ≤ f.month && f.month ≤ 12 && 1 ≤ f.day && f.day ≤ daysInMonth f.year f.month &&
    f.hour ≤ 23 && f.minute ≤ 59 && f.second ≤ 59

/-- Raw shape parse of the character list `YYYY-MM-DDTHH:MM:SSZ`
(4 digits, dash, 2 digits, dash, 2 digits, T, 2 digits, colon, 2 digits,
colon, 2 digits, Z). -/
def rawParseTs : List Char → Option TsFields
  | [y1, y2, y3, y4, '-', m1, m2, '-', d1, d2, 'T',
     h1, h2, ':', n1, n2, ':', s1, s2, 'Z'] => do
      let y ← parse4 y1 y2 y3 y4
      let mo ← parse2 m1 m2
      let d ← parse2 d1 d2
      let hh ← parse2 h1 h2
      let mi ← parse2 n1 n2
      let ss ← parse2 s1 s2
      pure ⟨y, mo, d, hh, mi, ss⟩
  | _ => none

/-- Parse of an ISO-UTC timestamp string into its fields: the shape parse
followed by the range validation the `Date` constructor performs. -/
def parseTs (cs : List Char) : Option TsFields :=
  (rawParseTs cs).filter validTs

/-- Days since 1970-01-01 of a civil date (Howard Hinnant's `days_from_civil`
algorithm, the standard conversion ECMAScript `MakeDay` realises). All
divisions truncate toward zero as in the reference algorithm. -/
def daysFromCivil (y : Int) (m d : Int) : Int :=
  let y' := if m ≤ 2 then y - 1 else y
  let era := Int.tdiv (if 0 ≤ y' then y' else y' - 399) 400
  let yoe := y' - era * 400
  let doy := Int.tdiv (153 * (if 2 < m then m - 3 else m + 9) + 2) 5 + d - 1
  let doe := yoe * 365 + Int.tdiv yoe 4 - Int.tdiv yoe 100 + doy
  era * 146097 + doe - 719468

/-- Seconds since the Unix epoch of a UTC timestamp's fields: the time value
the ECMAScript `Date` constructor assigns to `YYYY-MM-DDTHH:MM:SSZ`
(the JavaScript object holds milliseconds; the stored strings have whole
seconds, so seconds lose nothing). -/
def epochSecondsOfFields (f : TsFields) : Int :=
  86400 * daysFromCivil (f.year : Int) (f.month : Int) (f.day : Int)
    + 3600 * (f.hour : Int) + 60 * (f.minute : Int) + (f.second : Int)

/-- `parseUtcToLocal` of date-helper: for a non-empty string, replace the
first space by `T`, append `Z`, and build a `Date` from the resulting ISO-UTC
string (`none` models both the null return on empty input and an invalid
date). The returned instant is in seconds since the epoch. -/
def parseUtcToLocal (s : String) : Option Int :=
  if s = "" then none
  else (parseTs (replaceFirst s.data ' ' 'T' ++ ['Z'])).map epochSecondsOfFields

/-- `formatLocalTime` of date-helper: renders a parsed instant as the viewer's
local wall-clock hour and minute. `toLocaleTimeString` with 2-digit hour and
minute displays the local-timezone fields of the instant; a viewer at UTC
offset `offMin` minutes sees the instant shifted by that offset. `none`
models the `"-"` branch for a null date. -/
def formatLocalTime (d : Option Int) (offMin : Int) : Option (Nat × Nat) :=
  d.map fun t =>
    let localSec := (t + offMin * 60) % 86400
    let m := (localSec / 60).toNat
    (m / 60, m % 60)

/- ### Check-in lifecycle store (table `checkins`) -/

/-- Status values of a check-in row as stored: `'checked_in'` (the spec's
`open`) and `'checked_out'` (the spec's `closed`). -/
inductive CheckStatus
  | checkedIn
  | checkedOut
deriving DecidableEq, Repr

/-- One row of the `checkins` table, per the spec's persisted record shape:
`{id, employee_id, client_id, status, checkin_time, checkout_time, latitude,
longitude, distance_from_client, notes}`. Timestamps are seconds since the
epoch (stored UTC, no offset marker). -/
structure CheckinRecord where
  id : Nat
  employee_id : Nat
  client_id : String
  status : CheckStatus
  checkin_time : Nat
  checkout_time : Option Nat
  latitude : Int
  longitude : Int
  distance_from_client : Option Int
  notes : Option String
deriving DecidableEq, Repr

/-- The rows of one employee, in storage order. -/
def rowsOfEmployee (st : List CheckinRecord) (e : Nat) : List CheckinRecord :=
  st.filter (fun r => r.employee_id == e)

/-- The rows matching `employee_id = ? AND status = 'checked_in'`. -/
def openRecords (st : List CheckinRecord) (e : Nat) : List CheckinRecord :=
  st.filter (fun r => r.employee_id == e && r.status == CheckStatus.checkedIn)

/-- `count(records where employee_id = e and status = open)` of the spec's
central invariant. -/
def openCount (st : List CheckinRecord) (e : Nat) : Nat :=
  (openRecords st e).length

/-- The active-check-in SELECT quoted in the fix notes:
`SELECT * FROM checkins WHERE employee_id = ? AND status = ...checked_in...`,
taking the first returned row. -/
def findActive (st : List CheckinRecord) (e : Nat) : Option CheckinRecord :=
  st.find? (fun r => r.employee_id == e && r.status == CheckStatus.checkedIn)

/-- Outcome of one `startCheckin` call. -/
inductive StartResult
  | created (r : CheckinRecord)
  | alreadyCheckedIn
deriving DecidableEq, Repr

/-- The caller-supplied data of one `startCheckin` call, plus the server
clock reading `now` at which the call executes. -/
structure StartParams where
  client_id : String
  latitude : Int
  longitude : Int
  distance_from_client : Option Int
  notes : Option String
  now : Nat
deriving DecidableEq, Repr

/-- The `checked_in` row a successful `startCheckin` appends: a fresh id and
`checkin_time = now()`, the caller data stored verbatim. -/
def newCheckinRecord (nextId e : Nat) (p : StartParams) : CheckinRecord :=
  ⟨nextId, e, p.client_id, CheckStatus.checkedIn, p.now, none,
    p.latitude, p.longitude, p.distance_from_client, p.notes⟩

/-- Modelled from the spec: `startCheckin` of the Check-in Lifecycle Manager
(the route file backend/routes/checkin.js is not among the sources). Per
spec §4.1/§5 the existing-open-record check and the insert form one atomic
unit, serialized against concurrent calls for the same employee by the
store's partial uniqueness constraint `one_active_checkin` on
`checkins(employee_id) WHERE status = 'checked_in'`; so the call's effect
is: if the employee already holds an open record it fails `AlreadyCheckedIn`
with no mutation, otherwise it appends exactly one new `checked_in` record
with `checkin_time = now()` and a fresh id. -/
def startCheckin (st : List CheckinRecord) (nextId : Nat) (e : Nat)
    (p : StartParams) : StartResult × List CheckinRecord × Nat :=
  if (openRecords st e).isEmpty then
    (StartResult.created (newCheckinRecord nextId e p),
      st ++ [newCheckinRecord nextId e p], nextId + 1)
  else (StartResult.alreadyCheckedIn, st, nextId)

/-- Outcome of one `completeCheckout` call. -/
inductive CheckoutResult
  | success
  | noActiveCheckin
deriving DecidableEq, Repr

/-- The checkout UPDATE of backend/routes/checkin.js as quoted in the fix
notes: `UPDATE checkins SET checkout_time = datetime(...), status =
...checked_out... WHERE id = ?`. Returns the updated table and the
affected-row count. Its predicate is the row id alone — it mentions neither
`employee_id` nor `status`. -/
def updateById (st : List CheckinRecord) (i : Nat) (now : Nat) :
    List CheckinRecord × Nat :=
  (st.map fun r =>
      if r.id == i then
        { r with status := CheckStatus.checkedOut, checkout_time := some now }
      else r,
   (st.filter (fun r => r.id == i)).length)

/-- `completeCheckout` as the checkout route realises it: the route file is
not among the sources, but both of its SQL statements are quoted in the fix
notes — first the active-row SELECT (`findActive`), then the UPDATE keyed by
the id that SELECT returned (`updateById`). `NoActiveCheckin` is returned
when the SELECT finds no open row; otherwise the found row is updated by id
and the call reports success, so success is decided by the prior read, not
by the update's affected-row count. -/
def completeCheckout (st : List CheckinRecord) (e : Nat) (now : Nat) :
    CheckoutResult × List CheckinRecord :=
  match findActive st e with
  | none => (CheckoutResult.noActiveCheckin, st)
  | some r => (CheckoutResult.success, (updateById st r.id now).1)

/-- Two concurrent `completeCheckout` calls for the same employee in the
read–read–write–write interleaving: each call's SELECT and UPDATE are
separate round trips to the store, so the schedule in which both SELECTs run
before either UPDATE is reachable. Returns both calls' results and the final
table; call `i` reports success exactly when its own SELECT found a row. -/
def interleavedDoubleCheckout (st : List CheckinRecord) (e : Nat)
    (t1 t2 : Nat) : CheckoutResult × CheckoutResult × List CheckinRecord :=
  let r1 := findActive st e
  let r2 := findActive st e
  let st1 := match r1 with
    | none => st
    | some r => (updateById st r.id t1).1
  let st2 := match r2 with
    | none => st1
    | some r => (updateById st1 r.id t2).1
  ((if r1.isSome then CheckoutResult.success else CheckoutResult.noActiveCheckin),
   (if r2.isSome then CheckoutResult.success else CheckoutResult.noActiveCheckin),
   st2)

/-- One serialized store operation: a `startCheckin` or a `completeCheckout`
for some employee. -/
inductive StoreOp
  | start (e : Nat) (p : StartParams)
  | checkout (e : Nat) (now : Nat)
deriving Repr

/-- Applies one operation to the store (table plus id counter), discarding
the caller-visible result. -/
def applyOp (s : List CheckinRecord × Nat) (op : StoreOp) :
    List CheckinRecord × Nat :=
  match op with
  | StoreOp.start e p => (startCheckin s.1 s.2 e p).2
  | StoreOp.checkout e now => ((completeCheckout s.1 e now).2, s.2)

/-- Runs a sequence of operations from the empty store. -/
def runOps (ops : List StoreOp) : List CheckinRecord × Nat :=
  ops.foldl applyOp ([], 0)

/-- N racing `startCheckin` calls of one employee: the partial uniqueness
constraint serializes their check+insert units, so the race executes the
calls in sequence in the serialization order. Collects every call's result
together with the final store. -/
def runStarts (e : Nat) (st : List CheckinRecord) (nextId : Nat) :
    List StartParams → List StartResult × List CheckinRecord × Nat
  | [] => ([], st, nextId)
  | p :: ps =>
    let (res, st', n') := startCheckin st nextId e p
    let (rs, st'', n'') := runStarts e st' n' ps
    (res :: rs, st'', n'')

/- ### HTTP layer of the check-in routes -/

/-- The request body of `POST /checkin`:
`{client_id, latitude, longitude, distance_from_client?, notes?}`, each
field possibly absent. -/
structure CheckinBody where
  client_id : Option String
  latitude : Option Int
  longitude : Option Int
  distance_from_client : Option Int
  notes : Option String
deriving DecidableEq, Repr

/-- An HTTP response of the check-in routes: status code, the body's
`success` flag, and the record payload when one is carried. -/
structure ApiResponse where
  status : Nat
  success : Bool
  record : Option CheckinRecord
deriving DecidableEq, Repr

/-- Modelled from the spec: the `POST /checkin` route
(backend/routes/checkin.js is not among the sources; the fix notes quote its
corrected status responses: 400 for missing client input, 409 for an
existing active check-in, 401 from the auth middleware). Missing/invalid
identity fails 401 before anything else; a missing or empty `client_id` or a
missing coordinate is `InvalidInput` (400, no store access); with the store
unavailable the call fails 500 without mutation; otherwise the serialized
`startCheckin` either creates the record (201 with the created record) or
reports the conflict (409, no mutation). -/
def postCheckin (identity : Option Nat) (body : CheckinBody)
    (storageUp : Bool) (st : List CheckinRecord) (nextId now : Nat) :
    ApiResponse × List CheckinRecord × Nat :=
  match identity with
  | none => (⟨401, false, none⟩, st, nextId)
  | some e =>
    match body.client_id, body.latitude, body.longitude with
    | some cid, some la, some lo =>
      if cid = "" then (⟨400, false, none⟩, st, nextId)
      else if storageUp then
        match startCheckin st nextId e
          ⟨cid, la, lo, body.distance_from_client, body.notes, now⟩ with
        | (StartResult.created r, st', n') => (⟨201, true, some r⟩, st', n')
        | (StartResult.alreadyCheckedIn, st', n') => (⟨409, false, none⟩, st', n')
      else (⟨500, false, none⟩, st, nextId)
    | _, _, _ => (⟨400, false, none⟩, st, nextId)

/-- Modelled from the spec: the `GET /checkin/active` route. It returns the
employee's current open record, or an explicit none payload, as an ordinary
200 success — absence of an active check-in is a normal state, not an error
(never a 404). 401 without identity, 500 when the store is unavailable. -/
def getActiveCheckin (identity : Option Nat) (storageUp : Bool)
    (st : List CheckinRecord) : ApiResponse :=
  match identity with
  | none => ⟨401, false, none⟩
  | some e =>
    if storageUp then ⟨200, true, findActive st e⟩
    else ⟨500, false, none⟩

/- ### History page date filter (frontend/src/pages/History.jsx) -/

/-- Lexicographic comparison of character lists: the order JavaScript string
comparison and SQLite text ordering realise, under which `YYYY-MM-DD` date
strings sort chronologically. -/
def charListLe : List Char → List Char → Bool
  | [], _ => true
  | _ :: _, [] => false
  | a :: as, b :: bs =>
    if a < b then true
    else if a = b then charListLe as bs
    else false

/-- `a ≤ b` on `YYYY-MM-DD` date strings (lexicographic, hence
chronological). -/
def dateLe (a b : String) : Bool := charListLe a.data b.data

/-- What a submit of the filter form does. -/
inductive FilterAction
  | alerted
  | requested (start_date end_date : String)
deriving DecidableEq, Repr

/-- `handleFilter` of History.jsx: after `preventDefault`, if either date is
unset (the empty string is falsy) it alerts and returns without issuing any
request; otherwise it refetches `/checkin/history` with both dates appended
as query parameters. -/
def handleFilter (startDate endDate : String) : FilterAction :=
  if startDate = "" ∨ endDate = "" then FilterAction.alerted
  else FilterAction.requested startDate endDate

/-- The start-date input of History.jsx carries `max={todayLocal}`: the
values the control lets the user pick. Dates are `YYYY-MM-DD` strings, whose
lexicographic order is chronological order. -/
def startInputAllows (todayLocal v : String) : Bool :=
  dateLe v todayLocal

/-- The end-date input of History.jsx carries `min={startDate || ""}` and
`max={todayLocal}` (an empty `min` is no lower bound). -/
def endInputAllows (startDate todayLocal v : String) : Bool :=
  (startDate == "" || dateLe startDate v) && dateLe v todayLocal

/- ### Store query construction (parameterized SQL) -/

/-- A bound parameter value handed to the store alongside the SQL text. -/
inductive SqlParam
  | num (n : Nat)
  | str (s : String)
deriving DecidableEq, Repr

/-- The `GET /checkin/history` query construction after the injection fix
quoted in the notes: the base query (constant text, abbreviated here)
filters by the authenticated employee id; each supplied bound appends the
parameterized condition `AND DATE(ch.checkin_time) >= ?` resp. `<= ?` and
pushes the user value onto the parameter list; nothing of the user values
enters the text. The quoted code performs no range validation before the
construction. -/
def historyQuery (employeeId : Nat) (start_date end_date : Option String) :
    String × List SqlParam :=
  let q0 := "SELECT ch.*, c.name AS client_name, c.address AS client_address FROM checkins ch JOIN clients c ON ch.client_id = c.id WHERE ch.employee_id = ?"
  let p0 := [SqlParam.num employeeId]
  let s1 :=
    match start_date with
    | some v => (q0 ++ " AND DATE(ch.checkin_time) >= ?", p0 ++ [SqlParam.str v])
    | none => (q0, p0)
  let s2 :=
    match end_date with
    | some v => (s1.1 ++ " AND DATE(ch.checkin_time) <= ?", s1.2 ++ [SqlParam.str v])
    | none => s1
  (s2.1 ++ " ORDER BY ch.checkin_time DESC", s2.2)

/-- The SQL text and parameters report.js hands to `pool.execute`: the
constant base text (whitespace condensed) with parameters
`[req.user.id, date]`, plus ` AND u.id = ?` and the `employee_id` value
exactly when that filter was supplied, plus the constant grouping tail. -/
def dailySummaryQuery (managerUserId : Nat) (date : String)
    (employee_id : Option String) : String × List SqlParam :=
  let q := "SELECT u.id AS employee_id, u.name AS employee_name, COUNT(ch.id) AS total_checkins, COUNT(DISTINCT ch.client_id) AS clients_visited, ROUND(IFNULL(SUM((julianday(IFNULL(ch.checkout_time, ch.checkin_time)) - julianday(ch.checkin_time)) * 24 * 60), 0), 2) AS minutes_worked FROM users u LEFT JOIN checkins ch ON u.id = ch.employee_id WHERE u.manager_id = ? AND (ch.checkin_time IS NULL OR DATE(ch.checkin_time) = ?)"
  let p := [SqlParam.num managerUserId, SqlParam.str date]
  let s1 :=
    match employee_id with
    | some v => (q ++ " AND u.id = ?", p ++ [SqlParam.str v])
    | none => (q, p)
  (s1.1 ++ " GROUP BY u.id ORDER BY u.name", s1.2)

/- ### Daily summary report semantics (backend/routes/report.js) -/

/-- One row of the `users` table as the report reads it. -/
structure UserRow where
  id : Nat
  name : String
  manager_id : Option Nat
deriving DecidableEq, Repr

/-- One row of the `checkins` table as the report reads it; times are
minutes since the epoch (the query works in minutes:
`julianday(..) * 24 * 60`). -/
structure CheckinRow where
  id : Nat
  employee_id : Nat
  client_id : Nat
  checkin_time : Nat
  checkout_time : Option Nat
deriving DecidableEq, Repr

/-- The two tables the daily-summary query reads. -/
structure Db where
  users : List UserRow
  checkins : List CheckinRow
deriving Repr

/-- `DATE(t)`: the civil day of a minutes timestamp. A report date is
likewise a day number. -/
def dateOfMinutes (t : Nat) : Nat := t / 1440

/-- SQLite LEFT JOIN `users u LEFT JOIN checkins ch ON u.id = ch.employee_id`:
for one user, the matching checkin rows, or a single all-NULL row when none
match. -/
def joinRows (checkins : List CheckinRow) (u : UserRow) :
    List (Option CheckinRow) :=
  let matching := checkins.filter (fun ch => ch.employee_id == u.id)
  if matching.isEmpty then [none] else matching.map some

/-- The WHERE conjunct `(ch.checkin_time IS NULL OR DATE(ch.checkin_time) = ?)`
applied to one joined row. -/
def whereDate (date : Nat) : Option CheckinRow → Bool
  | none => true
  | some ch => dateOfMinutes ch.checkin_time == date

/-- One output row of the daily-summary query. -/
structure EmployeeRow where
  employee_id : Nat
  employee_name : String
  total_checkins : Nat
  clients_visited : Nat
  minutes_worked : Int
deriving DecidableEq, Repr

/-- Worked minutes of one checkin row:
`(julianday(IFNULL(ch.checkout_time, ch.checkin_time)) - julianday(ch.checkin_time)) * 24 * 60`
(zero for a still-open row). -/
def rowMinutes (ch : CheckinRow) : Int :=
  Int.ofNat (ch.checkout_time.getD ch.checkin_time) - Int.ofNat ch.checkin_time

/-- The aggregates of one GROUP BY group: `COUNT(ch.id)` and
`COUNT(DISTINCT ch.client_id)` count only non-NULL joined rows, and the
minutes `SUM` skips NULL rows, yielding 0 through `IFNULL` when no row is
counted (`ROUND(.., 2)` is the identity in whole minutes). -/
def groupRow (u : UserRow) (gs : List (Option CheckinRow)) : EmployeeRow :=
  let present := gs.filterMap id
  ⟨u.id, u.name, present.length,
    (present.map (fun ch => ch.client_id)).dedup.length,
    (present.map rowMinutes).sum⟩

/-- Inserts an employee row into a name-sorted list, keeping it sorted. -/
def insertByName (x : EmployeeRow) : List EmployeeRow → List EmployeeRow
  | [] => [x]
  | y :: ys =>
    if charListLe x.employee_name.data y.employee_name.data then x :: y :: ys
    else y :: insertByName x ys

/-- `ORDER BY u.name`: stable sort of the grouped rows by employee name. -/
def sortByName : List EmployeeRow → List EmployeeRow
  | [] => []
  | x :: xs => insertByName x (sortByName xs)

/-- The groups one user contributes to the query output: a user all of whose
joined rows are filtered away by the WHERE clause yields no group, otherwise
one aggregated row over the surviving joined rows. -/
def userGroups (checkins : List CheckinRow) (date : Nat) (u : UserRow) :
    List EmployeeRow :=
  let surviving := (joinRows checkins u).filter (whereDate date)
  if surviving.isEmpty then [] else [groupRow u surviving]

/-- The rows of the daily-summary query for a manager: users with
`manager_id = ?` (restricted to `u.id = ?` when the employee filter is
supplied), left-joined to checkins, filtered by the date conjunct, grouped
by user, then `ORDER BY u.name`. -/
def dailyRows (db : Db) (managerId : Nat) (date : Nat)
    (employeeFilter : Option Nat) : List EmployeeRow :=
  let team := db.users.filter (fun u =>
    u.manager_id == some managerId &&
      (match employeeFilter with
       | none => true
       | some i => u.id == i))
  sortByName (team.foldr (fun u acc => userGroups db.checkins date u ++ acc) [])

/-- The `team_stats` object of the response. -/
structure TeamStats where
  total_employees : Nat
  total_checkins : Nat
  total_minutes : Int
  total_clients : Nat
deriving DecidableEq, Repr

/-- The `rows.reduce` of report.js: folds the employee rows into the four
aggregates, starting from the explicit zero accumulator. -/
def teamStats (rows : List EmployeeRow) : TeamStats :=
  rows.foldl (fun acc e =>
    ⟨acc.total_employees + 1, acc.total_checkins + e.total_checkins,
      acc.total_minutes + e.minutes_worked,
      acc.total_clients + e.clients_visited⟩)
    ⟨0, 0, 0, 0⟩

/-- The `data` object of the daily-summary success response: always the
three fields `date`, `employees` and `team_stats`. -/
structure DailySummaryData where
  date : Nat
  employees : List EmployeeRow
  team_stats : TeamStats
deriving DecidableEq, Repr

/-- The daily-summary route's success payload for a validated date: the
query rows and the reduced team stats. -/
def dailySummary (db : Db) (managerId : Nat) (date : Nat)
    (employeeFilter : Option Nat) : DailySummaryData :=
  let rows := dailyRows db managerId date employeeFilter
  ⟨date, rows, teamStats rows⟩

/- ### Axios response interceptor (frontend/src/utils/api.js) -/

/-- The browser-held session: the `token` and `user` entries of
localStorage. -/
structure Session where
  token : Option String
  user : Option String
deriving DecidableEq, Repr

/-- `url.includes("/auth/login")` of the interceptor. -/
def urlIncludesAuthLogin (url : String) : Bool :=
  decide ("/auth/login".data <:+: url.data)

/-- What one pass through the response-error interceptor did. -/
structure InterceptResult where
  session : Session
  redirectedToLogin : Bool
  propagated : Bool
deriving DecidableEq, Repr

/-- The response-error interceptor of api.js. `status` is
`error.response?.status` (absent on network failures), `url` is
`error.config?.url || ""`. A failed login request is propagated untouched;
otherwise a 401 removes `token` and `user` from localStorage and sets
`window.location.href = "/login"`; every path ends in
`Promise.reject(error)`. -/
def responseInterceptor (status : Option Nat) (url : String) (s : Session) :
    InterceptResult :=
  if urlIncludesAuthLogin url then ⟨s, false, true⟩
  else if status == some 401 then ⟨⟨none, none⟩, true, true⟩
  else ⟨s, false, true⟩

/- ### Haversine distance (frontend/src/utils/calculateDistance.js) -/

noncomputable section

open Real

/-- `Math.atan2(y, x)`: the angle of the point `(x, y)`, realised as the
complex argument, with the ECMAScript range `(-π, π]`. -/
def atan2 (y x : ℝ) : ℝ := Complex.arg ⟨x, y⟩

/-- `Math.round(x)`: the nearest integer, ties rounding up (toward `+∞`). -/
def jsRound (x : ℝ) : ℤ := ⌊x + 1 / 2⌋

/-- `getDistanceInMeters` of calculateDistance.js over the real-number
semantics of its double-precision arithmetic: the haversine formula on an
Earth radius of 6371000 m, rounded to 2 decimal places through
`Math.round(meters * 100) / 100`. -/
def getDistanceInMeters (lat1 lon1 lat2 lon2 : ℝ) : ℝ :=
  let R : ℝ := 6371000
  let toRad := fun (deg : ℝ) => deg * π / 180
  let dLat := toRad (lat2 - lat1)
  let dLon := toRad (lon2 - lon1)
  let a := Real.sin (dLat / 2) * Real.sin (dLat / 2) +
    Real.cos (toRad lat1) * Real.cos (toRad lat2) *
      Real.sin (dLon / 2) * Real.sin (dLon / 2)
  let c := 2 * atan2 (Real.sqrt a) (Real.sqrt (1 - a))
  let meters := R * c
  (jsRound (meters * 100) : ℝ) / 100

end

/- ### Derived predicates used by the theorems -/

/-- Whether a `POST /checkin` body passes the route's input validation:
`client_id` present and non-empty, both coordinates present. -/
def bodyValid (b : CheckinBody) : Bool :=
  match b.client_id, b.latitude, b.longitude with
  | some cid, some _, some _ => cid != ""
  | _, _, _ => false

/-- Whether a `startCheckin` result is a creation success. -/
def isCreated : StartResult → Bool
  | StartResult.created _ => true
  | StartResult.alreadyCheckedIn => false

/- ### Helper lemmas -/

open Real

/-- The angle `atan2 (sqrt a) (sqrt (1 - a))` is non-negative: the point it
measures has non-negative imaginary part. -/
theorem atan2_sqrt_nonneg (a : ℝ) :
    0 ≤ atan2 (Real.sqrt a) (Real.sqrt (1 - a)) := by
  unfold atan2
  exact Complex.arg_nonneg_iff.mpr (by simp [Real.sqrt_nonneg])

/-- `Math.round` of a non-negative real is non-negative. -/
theorem jsRound_nonneg (x : ℝ) (h : 0 ≤ x) : 0 ≤ jsRound x := by
  unfold jsRound
  exact Int.le_floor.mpr (by push_cast; linarith)

/-- The rounded haversine output for an intermediate value `a` is
non-negative. -/
theorem distOfA_nonneg (a : ℝ) :
    0 ≤ ((jsRound (6371000 * (2 * atan2 (Real.sqrt a) (Real.sqrt (1 - a))) * 100) : ℝ) / 100) := by
  have h1 := atan2_sqrt_nonneg a
  have h2 : (0 : ℝ) ≤ 6371000 * (2 * atan2 (Real.sqrt a) (Real.sqrt (1 - a))) * 100 := by
    nlinarith
  have h3 := jsRound_nonneg _ h2
  have h4 : (0 : ℝ) ≤ (jsRound (6371000 * (2 * atan2 (Real.sqrt a) (Real.sqrt (1 - a))) * 100) : ℝ) := by
    exact_mod_cast h3
  linarith

/-- Claim C10: `getDistanceInMeters` (over the real-number semantics of its
double-precision arithmetic) is a pure function of its four numeric
arguments that is symmetric in its two points, returns 0 when the two points
coincide, and never returns a negative value. -/
theorem c10_distance_symm_zero_nonneg :
    (∀ lat1 lon1 lat2 lon2 : ℝ,
      getDistanceInMeters lat1 lon1 lat2 lon2 = getDistanceInMeters lat2 lon2 lat1 lon1) ∧
    (∀ lat lon : ℝ, getDistanceInMeters lat lon lat lon = 0) ∧
    (∀ lat1 lon1 lat2 lon2 : ℝ, 0 ≤ getDistanceInMeters lat1 lon1 lat2 lon2) := by
  refine ⟨?_, ?_, ?_⟩
  · intro lat1 lon1 lat2 lon2
    simp only [getDistanceInMeters]
    have key : ∀ A B : ℝ, A = B →
        ((jsRound (6371000 * (2 * atan2 (Real.sqrt A) (Real.sqrt (1 - A))) * 100) : ℝ) / 100)
          = ((jsRound (6371000 * (2 * atan2 (Real.sqrt B) (Real.sqrt (1 - B))) * 100) : ℝ) / 100) := by
      intro A B h; rw [h]
    apply key
    have h1 : (lat2 - lat1) * π / 180 / 2 = -((lat1 - lat2) * π / 180 / 2) := by ring
    have h2 : (lon2 - lon1) * π / 180 / 2 = -((lon1 - lon2) * π / 180 / 2) := by ring
    rw [h1, h2]
    simp only [Real.sin_neg]
    ring
  · intro lat lon
    simp only [getDistanceInMeters, sub_self, zero_mul, zero_div, Real.sin_zero,
      mul_zero, zero_add, add_zero, Real.sqrt_zero, sub_zero, Real.sqrt_one]
    have ha : atan2 0 1 = 0 := by
      unfold atan2
      exact Complex.arg_one
    rw [ha]
    norm_num
    unfold jsRound
    norm_num
  · intro lat1 lon1 lat2 lon2
    simp only [getDistanceInMeters]
    exact distOfA_nonneg _

/-- Claim C9: in the API client's response interceptor, the stored session
(token and user in localStorage) is cleared and the browser redirected to
`/login` exactly when the failed response has HTTP status 401 and the
request url does not contain `/auth/login`; a 401 from the login endpoint
and any 403 leave the stored session unchanged and only propagate the
error. -/
theorem c9_interceptor_session_clearing (status : Option Nat) (url : String)
    (s : Session) :
    ((responseInterceptor status url s).redirectedToLogin = true ↔
      status = some 401 ∧ urlIncludesAuthLogin url = false) ∧
    ((responseInterceptor status url s).redirectedToLogin = true →
      (responseInterceptor status url s).session = ⟨none, none⟩) ∧
    ((responseInterceptor status url s).redirectedToLogin = false →
      (responseInterceptor status url s).session = s) ∧
    (responseInterceptor status url s).propagated = true := by
  by_cases h : urlIncludesAuthLogin url
  · simp [responseInterceptor, h]
  · by_cases h2 : status = some 401
    · simp [responseInterceptor, h, h2]
    · simp [responseInterceptor, h, h2]

/-- Concrete instance of the interceptor claim: a 401 from a data route
clears the session and redirects; a 403 and a 401 from the login endpoint
leave it untouched. -/
theorem c9_interceptor_witness :
    (responseInterceptor (some 401) "/checkin/history" ⟨some "t", some "u"⟩).session
      = ⟨none, none⟩ ∧
    (responseInterceptor (some 403) "/checkin/history" ⟨some "t", some "u"⟩).session
      = ⟨some "t", some "u"⟩ ∧
    (responseInterceptor (some 401) "/auth/login" ⟨some "t", some "u"⟩).session
      = ⟨some "t", some "u"⟩ := by
  refine ⟨?_, ?_, ?_⟩
  · exact (c9_interceptor_session_clearing (some 401) "/checkin/history"
      ⟨some "t", some "u"⟩).2.1 (by decide)
  · exact (c9_interceptor_session_clearing (some 403) "/checkin/history"
      ⟨some "t", some "u"⟩).2.2.1 (by decide)
  · exact (c9_interceptor_session_clearing (some 401) "/auth/login"
      ⟨some "t", some "u"⟩).2.2.1 (by decide)

/-- Claim C6: user-supplied filter values (date bounds, employee id) reach
the store only as bound parameters, never interpolated into the SQL text:
the text handed to the store is a function of which filters are present
alone — two runs differing only in the user-supplied values execute the same
SQL text — and the values travel in the parameter lists. -/
theorem c6_parameterized_queries :
    (∀ (m : Nat) (d1 d2 : String) (e1 e2 : Option String),
      e1.isSome = e2.isSome →
      (dailySummaryQuery m d1 e1).1 = (dailySummaryQuery m d2 e2).1) ∧
    (∀ (m : Nat) (s1 s2 f1 f2 : Option String),
      s1.isSome = s2.isSome → f1.isSome = f2.isSome →
      (historyQuery m s1 f1).1 = (historyQuery m s2 f2).1) ∧
    (∀ (m : Nat) (d v : String),
      (dailySummaryQuery m d (some v)).2
        = [SqlParam.num m, SqlParam.str d, SqlParam.str v]) ∧
    (∀ (m : Nat) (sv ev : String),
      (historyQuery m (some sv) (some ev)).2
        = [SqlParam.num m, SqlParam.str sv, SqlParam.str ev]) := by
  refine ⟨?_, ?_, ?_, ?_⟩
  · intro m d1 d2 e1 e2 h
    cases e1 <;> cases e2 <;> simp_all [dailySummaryQuery]
  · intro m s1 s2 f1 f2 h1 h2
    cases s1 <;> cases s2 <;> cases f1 <;> cases f2 <;> simp_all [historyQuery]
  · intro m d v
    rfl
  · intro m sv ev
    rfl

/-- Concrete instance of the parameterized-query claim: two daily-summary
runs differing only in the date and employee filter values produce the same
SQL text; the history bounds land in the parameter list. -/
theorem c6_parameterized_queries_witness :
    (dailySummaryQuery 1 "2026-01-27" (some "2")).1
      = (dailySummaryQuery 1 "1999-12-31" (some "999")).1 ∧
    (historyQuery 2 (some "2026-01-10") (some "2026-01-20")).2
      = [SqlParam.num 2, SqlParam.str "2026-01-10", SqlParam.str "2026-01-20"] := by
  exact ⟨c6_parameterized_queries.1 1 "2026-01-27" "1999-12-31" (some "2") (some "999") rfl,
    c6_parameterized_queries.2.2.2 2 "2026-01-10" "2026-01-20"⟩

/-- Claim C4 counterexample: the claimed HTTP-400 rejection does not exist.
With both bounds present but inverted (end before start), `handleFilter`
submits the request instead of rejecting it; and the backend history query
construction, given a lone start bound, builds a store query carrying the
bound as a parameter — the request is served from the store, not rejected
before store access. -/
theorem c4_counterexample_no_http_400 :
    handleFilter "2026-01-20" "2026-01-10"
      = FilterAction.requested "2026-01-20" "2026-01-10" ∧
    handleFilter "2026-01-20" "2026-01-10" ≠ FilterAction.alerted ∧
    (historyQuery 2 (some "2026-01-10") none).2
      = [SqlParam.num 2, SqlParam.str "2026-01-10"] := by
  refine ⟨by decide, by decide, rfl⟩

/-- Claim C4 (amended): the date-range validation is enforced client-side,
not by an HTTP 400. `handleFilter` blocks a filter submission — alert, no
request issued, hence no store access — exactly when at least one bound is
unset; the History page's date inputs only admit an end date at or after the
start date and neither bound after today; and the backend history route
applies whichever bounds arrive as bound parameters instead of rejecting
them. -/
theorem c4_client_side_range_validation :
    (∀ s e : String, handleFilter s e = FilterAction.alerted ↔ (s = "" ∨ e = "")) ∧
    (∀ s today v : String, endInputAllows s today v = true →
      dateLe v today = true ∧ (s = "" ∨ dateLe s v = true)) ∧
    (∀ today v : String, startInputAllows today v = true → dateLe v today = true) ∧
    (∀ (eid : Nat) (sv : String), (historyQuery eid (some sv) none).2
      = [SqlParam.num eid, SqlParam.str sv]) := by
  refine ⟨?_, ?_, ?_, ?_⟩
  · intro s e
    unfold handleFilter
    by_cases h : s = "" ∨ e = "" <;> simp [h]
  · intro s today v h
    unfold endInputAllows at h
    simp only [Bool.and_eq_true, Bool.or_eq_true, beq_iff_eq] at h
    exact ⟨h.2, h.1⟩
  · intro today v h
    exact h
  · intro eid sv
    rfl

/-- Concrete instance of the amended range-validation claim: a submission
lacking the end bound is blocked client-side; an admitted end-input value is
neither in the future nor before the start. -/
theorem c4_client_side_range_validation_witness :
    handleFilter "2026-01-10" "" = FilterAction.alerted ∧
    (dateLe "2026-01-15" "2026-01-20" = true ∧
      ("2026-01-10" = "" ∨ dateLe "2026-01-10" "2026-01-15" = true)) := by
  constructor
  · exact (c4_client_side_range_validation.1 "2026-01-10" "").mpr (by decide)
  · exact c4_client_side_range_validation.2.1 "2026-01-10" "2026-01-20" "2026-01-15"
      (by decide)

/-- A fold appending per-element contributions is empty when every
contribution is. -/
theorem foldr_append_eq_nil {α β : Type} (g : α → List β) (l : List α)
    (h : ∀ u ∈ l, g u = []) :
    l.foldr (fun u acc => g u ++ acc) [] = [] := by
  induction l with
  | nil => rfl
  | cons a as ih =>
    rw [List.foldr_cons, h a (List.mem_cons_self a as), List.nil_append]
    exact ih (fun u hu => h u (List.mem_cons_of_mem a hu))

/-- A user who has at least one checkin row, none of it on the report date,
contributes no group: all their joined rows fail the WHERE date conjunct. -/
theorem userGroups_eq_nil (checkins : List CheckinRow) (date : Nat) (u : UserRow)
    (hdate : ∀ ch ∈ checkins, dateOfMinutes ch.checkin_time ≠ date)
    (hne : ∃ ch ∈ checkins, ch.employee_id = u.id) :
    userGroups checkins date u = [] := by
  obtain ⟨ch0, hch0, hid0⟩ := hne
  have hmem : ch0 ∈ checkins.filter (fun ch => ch.employee_id == u.id) :=
    List.mem_filter.mpr ⟨hch0, by simp [hid0]⟩
  have hne' : (checkins.filter (fun ch => ch.employee_id == u.id)).isEmpty = false := by
    cases hl : checkins.filter (fun ch => ch.employee_id == u.id) with
    | nil => rw [hl] at hmem; cases hmem
    | cons a as => rfl
  have hfil : ((checkins.filter (fun ch => ch.employee_id == u.id)).map some).filter
      (whereDate date) = [] := by
    rw [List.filter_eq_nil_iff]
    intro x hx
    obtain ⟨ch, hch, rfl⟩ := List.mem_map.mp hx
    have hd := hdate ch (List.mem_of_mem_filter hch)
    simp [whereDate, hd]
  simp [userGroups, joinRows, hne', hfil]

/-- When every team member contributes no group, the daily rows are empty. -/
theorem dailyRows_eq_nil (db : Db) (managerId date : Nat) (ef : Option Nat)
    (h : ∀ u ∈ db.users, userGroups db.checkins date u = []) :
    dailyRows db managerId date ef = [] := by
  simp only [dailyRows]
  rw [foldr_append_eq_nil (userGroups db.checkins date) _
    (fun u hu => h u (List.mem_of_mem_filter hu))]
  rfl

/-- Claim C5 counterexample: a team employee with no checkin rows at all
survives the left join as a NULL row, so on a date matching zero checkin
records the response is not the claimed empty collection with all-zero
aggregates: the employee appears with zeroed metrics and counts toward
`total_employees`. -/
theorem c5_counterexample_zeroed_employee_row :
    (dailySummary ⟨[⟨2, "Rahul", some 1⟩], [⟨1, 9, 5, 100, some 160⟩]⟩ 1 20466 none).employees
      = [⟨2, "Rahul", 0, 0, 0⟩] ∧
    (dailySummary ⟨[⟨2, "Rahul", some 1⟩], [⟨1, 9, 5, 100, some 160⟩]⟩ 1 20466 none).employees
      ≠ [] ∧
    (dailySummary ⟨[⟨2, "Rahul", some 1⟩], [⟨1, 9, 5, 100, some 160⟩]⟩ 1 20466 none).team_stats
      ≠ ⟨0, 0, 0, 0⟩ ∧
    ((⟨[⟨2, "Rahul", some 1⟩], [⟨1, 9, 5, 100, some 160⟩]⟩ : Db).checkins.filter
      (fun ch => dateOfMinutes ch.checkin_time == 20466)) = [] := by
  refine ⟨by decide, by decide, by decide, by decide⟩

/-- Claim C5 (amended): the daily-summary response always carries the full
typed shape (employees collection plus the four team_stats aggregates, never
a missing field or null); when the date matches zero check-in records and
every team employee has at least one check-in row, the employees collection
is empty and all four aggregates are zero. An employee with no check-in rows
at all instead appears with zeroed per-employee metrics and counts toward
`total_employees` (see the counterexample). -/
theorem c5_no_data_report_shape (db : Db) (managerId date : Nat)
    (ef : Option Nat)
    (hdate : ∀ ch ∈ db.checkins, dateOfMinutes ch.checkin_time ≠ date)
    (hcov : ∀ u ∈ db.users, ∃ ch ∈ db.checkins, ch.employee_id = u.id) :
    (dailySummary db managerId date ef).employees = [] ∧
    (dailySummary db managerId date ef).team_stats = ⟨0, 0, 0, 0⟩ := by
  have hrows : dailyRows db managerId date ef = [] :=
    dailyRows_eq_nil db managerId date ef
      (fun u hu => userGroups_eq_nil db.checkins date u hdate (hcov u hu))
  simp [dailySummary, hrows, teamStats]

/-- Concrete instance of the amended no-data claim: one team employee whose
only check-in lies on another day; the report for the empty day has an empty
employees collection and all-zero aggregates. -/
theorem c5_no_data_report_shape_witness :
    (dailySummary ⟨[⟨2, "Rahul", some 1⟩], [⟨1, 2, 5, 100, some 160⟩]⟩ 1 20466 none).employees
      = [] ∧
    (dailySummary ⟨[⟨2, "Rahul", some 1⟩], [⟨1, 2, 5, 100, some 160⟩]⟩ 1 20466 none).team_stats
      = ⟨0, 0, 0, 0⟩ :=
  c5_no_data_report_shape ⟨[⟨2, "Rahul", some 1⟩], [⟨1, 2, 5, 100, some 160⟩]⟩
    1 20466 none (by decide) (by decide)

/-- A successfully parsed timestamp has in-range fields. -/
theorem parseTs_valid {cs : List Char} {f : TsFields} (h : parseTs cs = some f) :
    validTs f = true := by
  unfold parseTs at h
  cases hr : rawParseTs cs with
  | none => rw [hr] at h; simp [Option.filter] at h
  | some g =>
    rw [hr] at h
    by_cases hv : validTs g
    · simp [Option.filter, hv] at h
      rwa [← h]
    · simp [Option.filter, hv] at h

/-- Claim C3: for every stored timestamp string of the form
`YYYY-MM-DD HH:MM:SS` (no timezone marker), the rendering pipeline
`parseUtcToLocal` followed by `formatLocalTime` interprets the value as UTC
and converts it to the viewer's local timezone: the displayed hour:minute is
the string's own UTC wall time shifted by the viewer offset, modulo one day.
The hypothesis states the string has the required form: the space-to-T,
append-Z rewrite of `parseUtcToLocal` parses as a valid ISO-UTC timestamp
with fields `f`. -/
theorem c3_utc_rendering (s : String) (off : Int) (f : TsFields)
    (h : parseTs (replaceFirst s.data ' ' 'T' ++ ['Z']) = some f) (hs : s ≠ "") :
    formatLocalTime (parseUtcToLocal s) off =
      some ((((60 * (f.hour : Int) + (f.minute : Int) + off) % 1440).toNat / 60),
        (((60 * (f.hour : Int) + (f.minute : Int) + off) % 1440).toNat % 60)) := by
  have hv := parseTs_valid h
  simp only [validTs, Bool.and_eq_true, decide_eq_true_eq] at hv
  have hfmt : ∀ (t : Int), formatLocalTime (some t) off
      = some ((((t + off * 60) % 86400 / 60).toNat) / 60,
        (((t + off * 60) % 86400 / 60).toNat) % 60) := fun t => rfl
  unfold parseUtcToLocal
  rw [if_neg hs, h]
  show formatLocalTime (some (epochSecondsOfFields f)) off = _
  rw [hfmt]
  unfold epochSecondsOfFields
  refine congrArg some ?_
  simp only [Prod.mk.injEq]
  have h1 : (86400 * daysFromCivil (f.year : Int) (f.month : Int) (f.day : Int)
      + 3600 * (f.hour : Int) + 60 * (f.minute : Int) + (f.second : Int) + off * 60) % 86400
      = 60 * ((60 * (f.hour : Int) + (f.minute : Int) + off) % 1440) + (f.second : Int) := by
    omega
  rw [h1]
  constructor <;> omega

/-- Concrete instance of the UTC-rendering claim: the stored value
`2026-01-15 09:15:00` rendered for a viewer at UTC+5:30 (offset 330 minutes)
displays 14:45 local, not 09:15. -/
theorem c3_utc_rendering_witness :
    formatLocalTime (parseUtcToLocal "2026-01-15 09:15:00") 330 = some (14, 45) ∧
    (14, 45) ≠ ((9 : Nat), (15 : Nat)) := by
  constructor
  · have h := c3_utc_rendering "2026-01-15 09:15:00" 330 ⟨2026, 1, 15, 9, 15, 0⟩
      (by decide) (by decide)
    rw [h]
    decide
  · decide

/-- If the rows satisfying `q` are exactly `[r]`, `p` implies `q`, and `r`
satisfies `p`, then the first row satisfying `p` is `r`. -/
theorem find?_eq_of_filter_eq_singleton {α : Type} {p q : α → Bool}
    {l : List α} {r : α} (hf : l.filter q = [r])
    (himp : ∀ x, p x = true → q x = true) (hp : p r = true) :
    l.find? p = some r := by
  induction l with
  | nil => simp at hf
  | cons a rest ih =>
    rw [List.filter_cons] at hf
    by_cases hq : q a
    · rw [if_pos hq] at hf
      have ha : a = r := (List.cons_eq_cons.mp hf).1
      subst ha
      simp [List.find?_cons, hp]
    · rw [if_neg hq] at hf
      have hpa : p a = false := by
        cases hpa : p a
        · rfl
        · exact absurd (himp a hpa) hq
      rw [List.find?_cons, hpa]
      exact ih hf

/-- Claim C2 counterexample: the checkout UPDATE is keyed by row id after a
separate read, not by `employee_id AND status = open`, so under the
read–read–write–write interleaving of two `completeCheckout` calls against
one open record both calls succeed — not one success and one
`NoActiveCheckin` — and the second write overwrites `checkout_time`. -/
theorem c2_counterexample_interleaved_double_success :
    (interleavedDoubleCheckout
        [⟨1, 7, "c", CheckStatus.checkedIn, 100, none, 0, 0, none, none⟩] 7 200 300).1
      = CheckoutResult.success ∧
    (interleavedDoubleCheckout
        [⟨1, 7, "c", CheckStatus.checkedIn, 100, none, 0, 0, none, none⟩] 7 200 300).2.1
      = CheckoutResult.success ∧
    ¬ (((interleavedDoubleCheckout
          [⟨1, 7, "c", CheckStatus.checkedIn, 100, none, 0, 0, none, none⟩] 7 200 300).1
            = CheckoutResult.success ∧
        (interleavedDoubleCheckout
          [⟨1, 7, "c", CheckStatus.checkedIn, 100, none, 0, 0, none, none⟩] 7 200 300).2.1
            = CheckoutResult.noActiveCheckin) ∨
       ((interleavedDoubleCheckout
          [⟨1, 7, "c", CheckStatus.checkedIn, 100, none, 0, 0, none, none⟩] 7 200 300).1
            = CheckoutResult.noActiveCheckin ∧
        (interleavedDoubleCheckout
          [⟨1, 7, "c", CheckStatus.checkedIn, 100, none, 0, 0, none, none⟩] 7 200 300).2.1
            = CheckoutResult.success)) ∧
    (interleavedDoubleCheckout
        [⟨1, 7, "c", CheckStatus.checkedIn, 100, none, 0, 0, none, none⟩] 7 200 300).2.2
      = [⟨1, 7, "c", CheckStatus.checkedOut, 100, some 300, 0, 0, none, none⟩] := by
  refine ⟨by decide, by decide, by decide, by decide⟩

/-- Claim C2 (amended): `completeCheckout` reads the employee's open record
and then updates that row by id (setting `status = closed`,
`checkout_time = now`); success is decided by the prior read, not by the
affected-row count of an update keyed by `employee_id AND status = open`.
When the two calls are serialized (each call's read and update run as a
unit), a second `completeCheckout` against the same record yields exactly
one success and one `NoActiveCheckin`, leaves exactly one closed record for
the employee with its one `checkout_time` set, and the failing call changes
no state; under an interleaved execution both calls can succeed (see the
counterexample). -/
theorem c2_checkout_serialized (st : List CheckinRecord) (e : Nat)
    (r : CheckinRecord) (t1 t2 : Nat)
    (hrows : rowsOfEmployee st e = [r])
    (hopen : r.status = CheckStatus.checkedIn) :
    (completeCheckout st e t1).1 = CheckoutResult.success ∧
    rowsOfEmployee (completeCheckout st e t1).2 e
      = [{ r with status := CheckStatus.checkedOut, checkout_time := some t1 }] ∧
    openCount (completeCheckout st e t1).2 e = 0 ∧
    completeCheckout (completeCheckout st e t1).2 e t2
      = (CheckoutResult.noActiveCheckin, (completeCheckout st e t1).2) := by
  have hrmem : r ∈ st.filter (fun x => x.employee_id == e) := by
    unfold rowsOfEmployee at hrows
    rw [hrows]
    exact List.mem_singleton_self r
  have hre : (r.employee_id == e) = true := (List.mem_filter.mp hrmem).2
  have hfilter : st.filter (fun x => x.employee_id == e) = [r] := hrows
  have hfind : findActive st e = some r := by
    unfold findActive
    refine find?_eq_of_filter_eq_singleton (q := fun x => x.employee_id == e)
      hfilter ?_ ?_
    · intro x hx
      exact (Bool.and_eq_true_iff.mp hx).1
    · rw [hopen]
      simp [hre]
  have hstep1 : completeCheckout st e t1
      = (CheckoutResult.success, (updateById st r.id t1).1) := by
    unfold completeCheckout
    rw [hfind]
  have hrows1 : rowsOfEmployee (updateById st r.id t1).1 e
      = [{ r with status := CheckStatus.checkedOut, checkout_time := some t1 }] := by
    unfold rowsOfEmployee updateById
    rw [List.filter_map]
    have hcongr : ∀ x ∈ st,
        ((fun y => y.employee_id == e) ∘ (fun y =>
          if y.id == r.id then
            { y with status := CheckStatus.checkedOut, checkout_time := some t1 }
          else y)) x = (fun y => y.employee_id == e) x := by
      intro x _
      simp only [Function.comp]
      by_cases hid : (x.id == r.id) = true
      · rw [if_pos hid]
      · rw [if_neg hid]
    rw [List.filter_congr hcongr, hfilter, List.map_singleton]
    simp
  have hnone1 : ∀ x ∈ (updateById st r.id t1).1,
      ¬ ((x.employee_id == e && x.status == CheckStatus.checkedIn) = true) := by
    intro x hx hpx
    have hqx : (x.employee_id == e) = true := (Bool.and_eq_true_iff.mp hpx).1
    have hxmem : x ∈ rowsOfEmployee (updateById st r.id t1).1 e := by
      unfold rowsOfEmployee
      exact List.mem_filter.mpr ⟨hx, hqx⟩
    rw [hrows1] at hxmem
    have hxr : x = { r with status := CheckStatus.checkedOut, checkout_time := some t1 } :=
      List.mem_singleton.mp hxmem
    rw [hxr] at hpx
    simp at hpx
  have hfind1 : findActive (updateById st r.id t1).1 e = none := by
    unfold findActive
    rw [List.find?_eq_none]
    exact hnone1
  have hopen1 : openCount (updateById st r.id t1).1 e = 0 := by
    unfold openCount openRecords
    rw [List.length_eq_zero, List.filter_eq_nil_iff]
    exact hnone1
  refine ⟨by rw [hstep1], ?_, ?_, ?_⟩
  · rw [hstep1]
    exact hrows1
  · rw [hstep1]
    exact hopen1
  · rw [hstep1]
    unfold completeCheckout
    rw [hfind1]

/-- Concrete instance of the serialized checkout claim: one open record,
checkout at time 200 succeeds and closes it, a second checkout at time 300
reports `NoActiveCheckin` and changes nothing. -/
theorem c2_checkout_serialized_witness :
    (completeCheckout [⟨1, 7, "c", CheckStatus.checkedIn, 100, none, 0, 0, none, none⟩] 7 200).1
      = CheckoutResult.success ∧
    rowsOfEmployee
        (completeCheckout [⟨1, 7, "c", CheckStatus.checkedIn, 100, none, 0, 0, none, none⟩] 7 200).2 7
      = [{ (⟨1, 7, "c", CheckStatus.checkedIn, 100, none, 0, 0, none, none⟩ : CheckinRecord) with
            status := CheckStatus.checkedOut, checkout_time := some 200 }] ∧
    openCount
        (completeCheckout [⟨1, 7, "c", CheckStatus.checkedIn, 100, none, 0, 0, none, none⟩] 7 200).2 7
      = 0 ∧
    completeCheckout
        (completeCheckout [⟨1, 7, "c", CheckStatus.checkedIn, 100, none, 0, 0, none, none⟩] 7 200).2 7 300
      = (CheckoutResult.noActiveCheckin,
         (completeCheckout [⟨1, 7, "c", CheckStatus.checkedIn, 100, none, 0, 0, none, none⟩] 7 200).2) :=
  c2_checkout_serialized
    [⟨1, 7, "c", CheckStatus.checkedIn, 100, none, 0, 0, none, none⟩] 7
    ⟨1, 7, "c", CheckStatus.checkedIn, 100, none, 0, 0, none, none⟩ 200 300
    (by decide) rfl

/-- `openCount` as a `countP`. -/
theorem openCount_eq_countP (st : List CheckinRecord) (e : Nat) :
    openCount st e
      = st.countP (fun x => x.employee_id == e && x.status == CheckStatus.checkedIn) := by
  simp [openCount, openRecords, List.countP_eq_length_filter]

/-- `openCount` across an append. -/
theorem openCount_append (s t : List CheckinRecord) (e : Nat) :
    openCount (s ++ t) e = openCount s e + openCount t e := by
  simp [openCount, openRecords, List.filter_append]

/-- The open-records list is empty iff the open count is zero. -/
theorem openRecords_isEmpty_iff (st : List CheckinRecord) (e : Nat) :
    (openRecords st e).isEmpty = true ↔ openCount st e = 0 := by
  unfold openCount
  cases openRecords st e <;> simp

/-- The checkout UPDATE only closes rows, so it never increases any
employee's open count. -/
theorem openCount_updateById_le (st : List CheckinRecord) (i now e : Nat) :
    openCount (updateById st i now).1 e ≤ openCount st e := by
  rw [openCount_eq_countP, openCount_eq_countP]
  unfold updateById
  rw [List.countP_map]
  refine List.countP_mono_left ?_
  intro x _ hx
  simp only [Function.comp] at hx
  by_cases hid : (x.id == i) = true
  · rw [if_pos hid] at hx
    simp at hx
  · rwa [if_neg hid] at hx

/-- One serialized operation preserves the single-open invariant. -/
theorem applyOp_keeps_invariant (s : List CheckinRecord × Nat) (op : StoreOp)
    (h : ∀ a, openCount s.1 a ≤ 1) (a : Nat) :
    openCount (applyOp s op).1 a ≤ 1 := by
  cases op with
  | start e p =>
    show openCount (startCheckin s.1 s.2 e p).2.1 a ≤ 1
    unfold startCheckin
    by_cases hemp : (openRecords s.1 e).isEmpty = true
    · rw [if_pos hemp]
      show openCount (s.1 ++ [_]) a ≤ 1
      rw [openCount_append]
      have h0 : openCount s.1 e = 0 := (openRecords_isEmpty_iff s.1 e).mp hemp
      by_cases hae : e = a
      · subst hae
        have hone : openCount [newCheckinRecord s.2 e p] e = 1 := by
          simp [openCount, openRecords, newCheckinRecord]
        omega
      · have hzero : openCount [newCheckinRecord s.2 e p] a = 0 := by
          simp [openCount, openRecords, newCheckinRecord, hae]
        have := h a
        omega
    · rw [if_neg hemp]
      exact h a
  | checkout e now =>
    show openCount (completeCheckout s.1 e now).2 a ≤ 1
    unfold completeCheckout
    cases hf : findActive s.1 e with
    | none => exact h a
    | some r =>
      show openCount (updateById s.1 r.id now).1 a ≤ 1
      exact le_trans (openCount_updateById_le s.1 r.id now a) (h a)

/-- Any operation sequence from an invariant-respecting store keeps the
invariant. -/
theorem foldl_applyOp_keeps_invariant (ops : List StoreOp) :
    ∀ (init : List CheckinRecord × Nat), (∀ a, openCount init.1 a ≤ 1) →
      ∀ a, openCount (ops.foldl applyOp init).1 a ≤ 1 := by
  induction ops with
  | nil => intro init h a; exact h a
  | cons op rest ih =>
    intro init h a
    rw [List.foldl_cons]
    exact ih (applyOp init op) (applyOp_keeps_invariant init op h) a

/-- With an open record already present, every racing `startCheckin` call
fails `AlreadyCheckedIn` and the store does not change. -/
theorem runStarts_all_conflict (e : Nat) (ps : List StartParams) :
    ∀ (st : List CheckinRecord) (n : Nat), openCount st e ≠ 0 →
      runStarts e st n ps
        = (ps.map (fun _ => StartResult.alreadyCheckedIn), st, n) := by
  induction ps with
  | nil => intro st n _; rfl
  | cons p ps ih =>
    intro st n h
    have hemp : (openRecords st e).isEmpty = false := by
      cases hb : (openRecords st e).isEmpty
      · rfl
      · exact absurd ((openRecords_isEmpty_iff st e).mp hb) h
    show (let res := startCheckin st n e p
          let rest := runStarts e res.2.1 res.2.2 ps
          (res.1 :: rest.1, rest.2.1, rest.2.2))
        = (StartResult.alreadyCheckedIn :: ps.map (fun _ => StartResult.alreadyCheckedIn), st, n)
    have hstart : startCheckin st n e p = (StartResult.alreadyCheckedIn, st, n) := by
      unfold startCheckin
      rw [hemp]
      simp
    simp only [hstart, ih st n h]

/-- Counting over the all-conflict result list. -/
theorem countP_map_const_conflict (ps : List StartParams) (p : StartResult → Bool) :
    (ps.map (fun _ => StartResult.alreadyCheckedIn)).countP p
      = if p StartResult.alreadyCheckedIn = true then ps.length else 0 := by
  induction ps with
  | nil => simp
  | cons a as ih =>
    rw [List.map_cons, List.countP_cons, ih]
    split <;> simp

/-- Claim C1: for every employee and every store reachable by any sequence
of serialized `startCheckin`/`completeCheckout` operations — the store's
partial uniqueness constraint serializes the conflict-check+insert unit, so
any concurrent interleaving executes as such a sequence — the number of
`checked_in` records of that employee is at most 1; and when N ≥ 2
`startCheckin` calls race with no prior open record, exactly one is created,
the other N−1 fail `AlreadyCheckedIn`, and exactly one open record exists
afterward. -/
theorem c1_single_open_invariant :
    (∀ (ops : List StoreOp) (e : Nat), openCount (runOps ops).1 e ≤ 1) ∧
    (∀ (st : List CheckinRecord) (n e : Nat) (ps : List StartParams),
      openCount st e = 0 → 2 ≤ ps.length →
      (runStarts e st n ps).1.countP isCreated = 1 ∧
      (runStarts e st n ps).1.countP (fun x => x == StartResult.alreadyCheckedIn)
        = ps.length - 1 ∧
      openCount (runStarts e st n ps).2.1 e = 1) := by
  constructor
  · intro ops e
    exact foldl_applyOp_keeps_invariant ops ([], 0)
      (fun a => by simp [openCount, openRecords]) e
  · intro st n e ps h0 hlen
    cases ps with
    | nil => simp at hlen
    | cons p ps =>
      have hemp : (openRecords st e).isEmpty = true :=
        (openRecords_isEmpty_iff st e).mpr h0
      have hstart : startCheckin st n e p
          = (StartResult.created (newCheckinRecord n e p),
             st ++ [newCheckinRecord n e p], n + 1) := by
        unfold startCheckin
        rw [if_pos hemp]
      have hop1 : openCount (st ++ [newCheckinRecord n e p]) e = 1 := by
        rw [openCount_append, h0]
        simp [openCount, openRecords, newCheckinRecord]
      have hrest := runStarts_all_conflict e ps (st ++ [newCheckinRecord n e p])
        (n + 1) (by omega)
      have hrun : runStarts e st n (p :: ps)
          = (StartResult.created (newCheckinRecord n e p)
              :: ps.map (fun _ => StartResult.alreadyCheckedIn),
             st ++ [newCheckinRecord n e p], n + 1) := by
        show (let res := startCheckin st n e p
              let rest := runStarts e res.2.1 res.2.2 ps
              (res.1 :: rest.1, rest.2.1, rest.2.2)) = _
        simp only [hstart, hrest]
      rw [hrun]
      refine ⟨?_, ?_, ?_⟩
      · rw [List.countP_cons, countP_map_const_conflict]
        simp [isCreated]
      · rw [List.countP_cons, countP_map_const_conflict]
        simp
      · exact hop1

/-- Concrete instance of the single-open claim: two racing `startCheckin`
calls on an empty store make exactly one created result, one
`AlreadyCheckedIn`, and one open record. -/
theorem c1_single_open_invariant_witness :
    (runStarts 1 [] 0
      [⟨"c1", 0, 0, none, none, 10⟩, ⟨"c2", 0, 0, none, none, 11⟩]).1.countP isCreated = 1 ∧
    (runStarts 1 [] 0
      [⟨"c1", 0, 0, none, none, 10⟩, ⟨"c2", 0, 0, none, none, 11⟩]).1.countP
        (fun x => x == StartResult.alreadyCheckedIn)
      = [(⟨"c1", 0, 0, none, none, 10⟩ : StartParams),
         ⟨"c2", 0, 0, none, none, 11⟩].length - 1 ∧
    openCount (runStarts 1 [] 0
      [⟨"c1", 0, 0, none, none, 10⟩, ⟨"c2", 0, 0, none, none, 11⟩]).2.1 1 = 1 :=
  c1_single_open_invariant.2 [] 0 1
    [⟨"c1", 0, 0, none, none, 10⟩, ⟨"c2", 0, 0, none, none, 11⟩]
    (by decide) (by decide)

/-- Claim C8: `getActiveCheckin` returns either the employee's single open
record or an explicit none payload; for an employee with no open record the
none payload comes as an ordinary 200 success — never an error, exception or
404. -/
theorem c8_active_absence_is_success (e : Nat) (st : List CheckinRecord) :
    (getActiveCheckin (some e) true st).status = 200 ∧
    (getActiveCheckin (some e) true st).success = true ∧
    ((getActiveCheckin (some e) true st).record = none ↔ openCount st e = 0) ∧
    (∀ r, (getActiveCheckin (some e) true st).record = some r →
      r ∈ st ∧ r.employee_id = e ∧ r.status = CheckStatus.checkedIn) := by
  refine ⟨rfl, rfl, ?_, ?_⟩
  · show findActive st e = none ↔ _
    unfold findActive openCount openRecords
    rw [List.find?_eq_none, List.length_eq_zero, List.filter_eq_nil_iff]
  · intro r hr
    have hmem := List.mem_of_find?_eq_some hr
    have hp := List.find?_some hr
    simp only [Bool.and_eq_true_iff, beq_iff_eq] at hp
    exact ⟨hmem, hp.1, hp.2⟩

/-- Concrete instance of the absence-is-success claim: an employee with no
open record gets a 200 success with a none payload. -/
theorem c8_active_absence_is_success_witness :
    (getActiveCheckin (some 5) true []).status = 200 ∧
    (getActiveCheckin (some 5) true []).success = true ∧
    (getActiveCheckin (some 5) true []).record = none :=
  ⟨(c8_active_absence_is_success 5 []).1,
   (c8_active_absence_is_success 5 []).2.1,
   (c8_active_absence_is_success 5 []).2.2.1.mpr (by decide)⟩

/-- Claim C7: `POST /checkin` returns a 201 success carrying the created
record, and maps each failure kind to exactly one status — 400 for
`InvalidInput` (missing/empty client id or missing coordinates), 409 for
`AlreadyCheckedIn`, 401 for missing identity, 500 for `StorageUnavailable` —
and no failure ever returns a 200-class status; failing calls leave the
store unchanged. -/
theorem c7_checkin_status_codes (identity : Option Nat) (body : CheckinBody)
    (up : Bool) (st : List CheckinRecord) (nextId now : Nat) :
    ((postCheckin identity body up st nextId now).1.status = 201 ∨
      (postCheckin identity body up st nextId now).1.status = 400 ∨
      (postCheckin identity body up st nextId now).1.status = 401 ∨
      (postCheckin identity body up st nextId now).1.status = 409 ∨
      (postCheckin identity body up st nextId now).1.status = 500) ∧
    ((postCheckin identity body up st nextId now).1.success = true ↔
      (postCheckin identity body up st nextId now).1.status = 201) ∧
    ((postCheckin identity body up st nextId now).1.success = false →
      400 ≤ (postCheckin identity body up st nextId now).1.status) ∧
    ((postCheckin identity body up st nextId now).1.status = 401 ↔ identity = none) ∧
    ((postCheckin identity body up st nextId now).1.success = false →
      (postCheckin identity body up st nextId now).2 = (st, nextId)) ∧
    (∀ e, identity = some e →
      (((postCheckin identity body up st nextId now).1.status = 400 ↔
          bodyValid body = false) ∧
       ((postCheckin identity body up st nextId now).1.status = 500 ↔
          bodyValid body = true ∧ up = false) ∧
       ((postCheckin identity body up st nextId now).1.status = 409 ↔
          bodyValid body = true ∧ up = true ∧ openCount st e ≠ 0) ∧
       ((postCheckin identity body up st nextId now).1.status = 201 ↔
          bodyValid body = true ∧ up = true ∧ openCount st e = 0) ∧
       ((postCheckin identity body up st nextId now).1.status = 201 →
          ∃ cid la lo, body.client_id = some cid ∧ body.latitude = some la ∧
            body.longitude = some lo ∧
            (postCheckin identity body up st nextId now).1.record
              = some (newCheckinRecord nextId e
                  ⟨cid, la, lo, body.distance_from_client, body.notes, now⟩) ∧
            (postCheckin identity body up st nextId now).2.1
              = st ++ [newCheckinRecord nextId e
                  ⟨cid, la, lo, body.distance_from_client, body.notes, now⟩]))) := by
  cases identity with
  | none => simp [postCheckin]
  | some e =>
    cases hc : body.client_id with
    | none => simp [postCheckin, hc, bodyValid]
    | some cid =>
      cases hla : body.latitude with
      | none => simp [postCheckin, hc, hla, bodyValid]
      | some la =>
        cases hlo : body.longitude with
        | none => simp [postCheckin, hc, hla, hlo, bodyValid]
        | some lo =>
          by_cases hcid : cid = ""
          · simp [postCheckin, hc, hla, hlo, bodyValid, hcid]
          · cases up with
            | false => simp [postCheckin, hc, hla, hlo, bodyValid, hcid]
            | true =>
              by_cases hemp : (openRecords st e).isEmpty = true
              · have h0 := (openRecords_isEmpty_iff st e).mp hemp
                simp [postCheckin, hc, hla, hlo, bodyValid, hcid, startCheckin,
                  hemp, h0]
              · have h0 : openCount st e ≠ 0 := fun hz =>
                  hemp ((openRecords_isEmpty_iff st e).mpr hz)
                simp [postCheckin, hc, hla, hlo, bodyValid, hcid, startCheckin,
                  hemp, h0]

/-- Concrete instances of the status-mapping claim: 401 without identity,
400 for a missing client id, 201 on a fresh check-in, 500 with the store
down, and no 200-class status on a failure. -/
theorem c7_checkin_status_codes_witness :
    (postCheckin none ⟨some "3", some 1, some 2, none, none⟩ true [] 0 50).1.status = 401 ∧
    (postCheckin (some 7) ⟨none, some 1, some 2, none, none⟩ true [] 0 50).1.status = 400 ∧
    (postCheckin (some 7) ⟨some "3", some 1, some 2, none, none⟩ true [] 0 50).1.status = 201 ∧
    (postCheckin (some 7) ⟨some "3", some 1, some 2, none, none⟩ false [] 0 50).1.status = 500 ∧
    400 ≤ (postCheckin (some 7) ⟨none, some 1, some 2, none, none⟩ true [] 0 50).1.status := by
  refine ⟨?_, ?_, ?_, ?_, ?_⟩
  · exact (c7_checkin_status_codes none ⟨some "3", some 1, some 2, none, none⟩
      true [] 0 50).2.2.2.1.mpr rfl
  · exact ((c7_checkin_status_codes (some 7) ⟨none, some 1, some 2, none, none⟩
      true [] 0 50).2.2.2.2.2 7 rfl).1.mpr (by decide)
  · exact ((c7_checkin_status_codes (some 7) ⟨some "3", some 1, some 2, none, none⟩
      true [] 0 50).2.2.2.2.2 7 rfl).2.2.2.1.mpr ⟨by decide, rfl, by decide⟩
  · exact ((c7_checkin_status_codes (some 7) ⟨some "3", some 1, some 2, none, none⟩
      false [] 0 50).2.2.2.2.2 7 rfl).2.1.mpr ⟨by decide, rfl⟩
  · exact (c7_checkin_status_codes (some 7) ⟨none, some 1, some 2, none, none⟩
      true [] 0 50).2.2.1 (by decide)
